import Mathlib

/-!
Verification development for the vrf-program crate (PromiseGameFi/VRF).

The development shallowly embeds the on-chain program from
src/vrf-program (state.rs, processor.rs, instruction.rs, lib.rs,
error.rs) into Lean. Accounts are modelled at the record level: the
raw byte storage of an account is represented as an Option of the
decoded record, where none stands for empty storage and some r for
storage holding the canonical encoding of r. Machine bytes are
modelled as Nat values below 256 and 64-bit lanes as Nat values
reduced modulo 2 to the 64.

The SHA3-256 hash used by fulfill_randomness comes from the external
sha3 crate; it is embedded here as a full executable Keccak sponge
(validated against the standard SHA3-256 test vectors, see
sha3_256_empty_test_vector below).
-/

/-! ## Keccak permutation and SHA3-256 (external sha3 crate dependency) -/

/-- Left rotation of a 64-bit lane represented as a Nat below 2 to the 64. -/
def rotl64 (x n : Nat) : Nat :=
  ((x <<< n) ||| (x >>> (64 - n))) % (2 ^ 64)

/-- One step of the eight-bit linear feedback shift register of FIPS
202 that generates the Keccak round-constant bits (feedback
polynomial 0x71 on overflow of the top bit). -/
def lfsrStep (R : Nat) : Nat :=
  if R &&& 0x80 ≠ 0 then ((R <<< 1) ^^^ 0x71) % 256 else (R <<< 1) % 256

/-- The register contents after t steps, starting from 1. -/
def lfsrState : Nat → Nat
  | 0 => 1
  | t + 1 => lfsrStep (lfsrState t)

/-- Round constant of round ir: bit j + 7 * ir of the register
stream lands at bit position 2 to the j minus 1, for j up to 6. -/
def keccakRCval (ir : Nat) : Nat :=
  (List.range 7).foldl
    (fun acc j => acc ||| ((lfsrState (j + 7 * ir) &&& 1) <<< (2 ^ j - 1))) 0

/-- The round constants of the 24 rounds of Keccak-f[1600]. -/
def keccakRC : List Nat := (List.range 24).map keccakRCval

/-- Keccak rho rotation offsets, indexed by lane index x + 5 * y and
generated by the FIPS 202 coordinate walk: starting from lane (1, 0),
step t writes offset (t + 1)(t + 2) / 2 mod 64 and moves to
(y, 2x + 3y mod 5). -/
def keccakRotOffsets : List Nat :=
  let step := fun (acc : List Nat × Nat × Nat) (t : Nat) =>
    let A := acc.1
    let x := acc.2.1
    let y := acc.2.2
    (A.set (x + 5 * y) (((t + 1) * (t + 2) / 2) % 64), y, (2 * x + 3 * y) % 5)
  ((List.range 24).foldl step (List.replicate 25 0, 1, 0)).1

/-- Theta step of the Keccak round function. The state is a list of
25 lanes, indexed by x + 5 * y. -/
def keccakTheta (A : List Nat) : List Nat :=
  let C := (List.range 5).map (fun x =>
    A.getD x 0 ^^^ A.getD (x + 5) 0 ^^^ A.getD (x + 10) 0 ^^^
    A.getD (x + 15) 0 ^^^ A.getD (x + 20) 0)
  let D := (List.range 5).map (fun x =>
    C.getD ((x + 4) % 5) 0 ^^^ rotl64 (C.getD ((x + 1) % 5) 0) 1)
  (List.range 25).map (fun i => A.getD i 0 ^^^ D.getD (i % 5) 0)

/-- Combined rho and pi steps: the lane at output coordinates
(xp, yp) is the lane at (xp + 3 yp mod 5, xp) rotated by its rho
offset. -/
def keccakRhoPi (A : List Nat) : List Nat :=
  (List.range 25).map (fun j =>
    let xp := j % 5
    let yp := j / 5
    let src := (xp + 3 * yp) % 5 + 5 * xp
    rotl64 (A.getD src 0) (keccakRotOffsets.getD src 0))

/-- Chi step of the Keccak round function. -/
def keccakChi (B : List Nat) : List Nat :=
  (List.range 25).map (fun j =>
    let x := j % 5
    let y := j / 5
    B.getD j 0 ^^^
      ((B.getD ((x + 1) % 5 + 5 * y) 0 ^^^ 0xFFFFFFFFFFFFFFFF) &&&
       B.getD ((x + 2) % 5 + 5 * y) 0))

/-- Iota step: xor the round constant of round r into lane 0. -/
def keccakIota (A : List Nat) (r : Nat) : List Nat :=
  (List.range 25).map (fun j =>
    if j = 0 then A.getD 0 0 ^^^ keccakRC.getD r 0 else A.getD j 0)

/-- The full Keccak-f[1600] permutation: 24 rounds of
theta, rho-pi, chi, iota. -/
def keccakF (A : List Nat) : List Nat :=
  (List.range 24).foldl
    (fun S r => keccakIota (keccakChi (keccakRhoPi (keccakTheta S))) r) A

/-- Interpret up to eight bytes as a little-endian 64-bit lane. -/
def bytesToLane (bs : List Nat) : Nat :=
  bs.foldr (fun b acc => b + 256 * acc) 0

/-- The eight little-endian bytes of a 64-bit lane. -/
def laneToBytes (x : Nat) : List Nat :=
  (List.range 8).map (fun i => (x >>> (8 * i)) % 256)

/-- Absorb one rate-sized block (136 bytes for SHA3-256) into the
sponge state and apply the permutation. -/
def absorbBlock (A : List Nat) (block : List Nat) : List Nat :=
  keccakF ((List.range 25).map (fun i =>
    A.getD i 0 ^^^ bytesToLane ((block.drop (8 * i)).take 8)))

/-- SHA3 multi-rate padding for rate 136: append 0x06, zero fill,
and set the top bit of the final byte of the block. -/
def sha3Pad (msg : List Nat) : List Nat :=
  let padLen := 136 - msg.length % 136
  if padLen = 1 then msg ++ [0x86]
  else msg ++ [0x06] ++ List.replicate (padLen - 2) 0 ++ [0x80]

/-- Absorb the given number of 136-byte blocks taken from the front
of the padded message. -/
def absorbBlocks : List Nat → Nat → List Nat → List Nat
  | A, 0, _ => A
  | A, n + 1, rest => absorbBlocks (absorbBlock A (rest.take 136)) n (rest.drop 136)

/-- SHA3-256 of a byte sequence: pad, absorb all blocks, and squeeze
the first 32 bytes (lanes 0 to 3, little endian) of the state. -/
def sha3_256 (msg : List Nat) : List Nat :=
  let padded := sha3Pad msg
  let A := absorbBlocks (List.replicate 25 0) (padded.length / 136) padded
  ((List.range 4).map (fun i => laneToBytes (A.getD i 0))).flatten

/-! ## Data model, from src/vrf-program/src/state.rs -/

/-- Identities (solana Pubkey values) are only ever compared for
equality by the program, so they are modelled as Nat. -/
abbrev Pubkey := Nat

/-- Embedding of VrfAccountState, src/vrf-program/src/state.rs lines
4 to 12. The seed is a variable-length byte sequence; randomness is
32 bytes and proof 64 bytes when present. -/
structure VrfAccountState where
  authority : Pubkey
  is_initialized : Bool
  seed : Option (List Nat)
  randomness : Option (List Nat)
  proof : Option (List Nat)
  public_key : List Nat
deriving DecidableEq

/-- Embedding of GameState, src/vrf-program/src/state.rs lines 24 to
29. -/
inductive GameState where
  | AwaitingRandomness
  | AwaitingPlayerGuess
  | GameComplete
deriving DecidableEq

/-- Embedding of GameResult, src/vrf-program/src/state.rs lines 31
to 35. -/
inductive GameResult where
  | Win
  | Lose
deriving DecidableEq

/-- Embedding of GameAccountState, src/vrf-program/src/state.rs
lines 14 to 22. -/
structure GameAccountState where
  authority : Pubkey
  is_initialized : Bool
  randomness : Option (List Nat)
  game_state : GameState
  player_guess : Option Nat
  result : Option GameResult
deriving DecidableEq

/-- Embedding of calculate_game_number, src/vrf-program/src/state.rs
lines 38 to 41: first byte of the randomness modulo 100. -/
def calculate_game_number (randomness : List Nat) : Nat :=
  randomness.headD 0 % 100

/-! ## Errors, from src/vrf-program/src/error.rs and the solana
ProgramError variants used by src/vrf-program/src/processor.rs.

The spec names these error kinds abstractly; the correspondence is:
MalformedOperation = InvalidInstruction, MissingAuthorization =
MissingRequiredSignature, NotOwned = IncorrectProgramId, WrongPhase =
InvalidGameState, CommitmentMissing = InvalidArgument (the
ProgramError the source returns when the seed is absent),
RandomnessUnavailable = RandomnessNotAvailable, DecodeError =
BorshIoError. -/

/-- The error kinds the embedded operations can return: the VrfError
variants of src/vrf-program/src/error.rs together with the solana
ProgramError variants the processor uses directly. -/
inductive ProgramErr where
  | MissingRequiredSignature
  | IncorrectProgramId
  | InvalidArgument
  | BorshIoError
  | InvalidInstruction
  | InvalidProof
  | InvalidAuthority
  | InvalidGameState
  | RandomnessNotAvailable
deriving DecidableEq

/-! ## Processor operations, from src/vrf-program/src/processor.rs.

Each operation receives the host-checked facts about its accounts
(is the authority a transaction signer, is each account owned by the
program) as booleans, the key of the acting identity, and the
current storage of each touched account as an Option record (none is
empty storage). It returns the record value(s) serialized back on
success, or the error aborting the operation. A returned error means
the host discards every write of the operation. -/

/-- Embedding of initialize_vrf, src/vrf-program/src/processor.rs
lines 36 to 65. Note the source never reads the existing account
data: vrf_data is accepted and ignored, and the fresh state is
written unconditionally with the dummy public key [1u8; 32]. -/
def initialize_vrf (authority_is_signer vrf_owned : Bool) (authority_key : Pubkey)
    (vrf_data : Option VrfAccountState) : Except ProgramErr VrfAccountState :=
  if !authority_is_signer then .error .MissingRequiredSignature
  else if !vrf_owned then .error .IncorrectProgramId
  else
    .ok { authority := authority_key
          is_initialized := true
          seed := none
          randomness := none
          proof := none
          public_key := List.replicate 32 1 }

/-- Embedding of request_randomness, src/vrf-program/src/processor.rs
lines 68 to 118. When the game account storage is empty a fresh game
state is created inline; otherwise the stored record is used. Both
the vrf record and the game record are rewritten. -/
def request_randomness (authority_is_signer vrf_owned game_owned : Bool)
    (authority_key : Pubkey) (vrf_data : Option VrfAccountState)
    (game_data : Option GameAccountState) (seed : List Nat) :
    Except ProgramErr (VrfAccountState × GameAccountState) :=
  if !authority_is_signer then .error .MissingRequiredSignature
  else if !vrf_owned || !game_owned then .error .IncorrectProgramId
  else
    match vrf_data with
    | none => .error .BorshIoError
    | some vrf_state =>
      if vrf_state.authority ≠ authority_key then .error .InvalidAuthority
      else
        let game_state :=
          match game_data with
          | none =>
            { authority := authority_key
              is_initialized := true
              randomness := none
              game_state := GameState.AwaitingRandomness
              player_guess := none
              result := none : GameAccountState }
          | some g => g
        .ok ({ vrf_state with seed := some seed, randomness := none, proof := none },
             { game_state with game_state := GameState.AwaitingRandomness
                               randomness := none
                               player_guess := none
                               result := none })

/-- Embedding of fulfill_randomness, src/vrf-program/src/processor.rs
lines 121 to 168. The randomness is the SHA3-256 hash of the proof
followed by the committed seed (the source feeds the proof and then
the seed into one hasher, which hashes their concatenation). A
missing seed aborts with InvalidArgument, the error the spec calls
CommitmentMissing. -/
def fulfill_randomness (authority_is_signer vrf_owned game_owned : Bool)
    (authority_key : Pubkey) (vrf_data : Option VrfAccountState)
    (game_data : Option GameAccountState) (proof : List Nat) :
    Except ProgramErr (VrfAccountState × GameAccountState) :=
  if !authority_is_signer then .error .MissingRequiredSignature
  else if !vrf_owned || !game_owned then .error .IncorrectProgramId
  else
    match vrf_data with
    | none => .error .BorshIoError
    | some vrf_state =>
      if vrf_state.authority ≠ authority_key then .error .InvalidAuthority
      else
        match vrf_state.seed with
        | none => .error .InvalidArgument
        | some seed =>
          let randomness_bytes := sha3_256 (proof ++ seed)
          match game_data with
          | none => .error .BorshIoError
          | some game_state =>
            .ok ({ vrf_state with proof := some proof, randomness := some randomness_bytes },
                 { game_state with randomness := some randomness_bytes
                                   game_state := GameState.AwaitingPlayerGuess })

/-- Embedding of initialize_game, src/vrf-program/src/processor.rs
lines 186 to 211. As with initialize_vrf, the existing account data
is never read: game_data is ignored and the fresh state written
unconditionally. -/
def initialize_game (authority_is_signer game_owned : Bool) (authority_key : Pubkey)
    (game_data : Option GameAccountState) : Except ProgramErr GameAccountState :=
  if !authority_is_signer then .error .MissingRequiredSignature
  else if !game_owned then .error .IncorrectProgramId
  else
    .ok { authority := authority_key
          is_initialized := true
          randomness := none
          game_state := GameState.AwaitingRandomness
          player_guess := none
          result := none }

/-- Embedding of submit_guess, src/vrf-program/src/processor.rs lines
214 to 260. The player account is only checked to be a signer; its
key (player_key) is never compared against the stored authority, and
the vrf account passed by the instruction layout is unused. -/
def submit_guess (player_is_signer : Bool) (player_key : Pubkey) (game_owned : Bool)
    (game_data : Option GameAccountState) (guess : Nat) :
    Except ProgramErr GameAccountState :=
  if !player_is_signer then .error .MissingRequiredSignature
  else if !game_owned then .error .IncorrectProgramId
  else
    match game_data with
    | none => .error .BorshIoError
    | some game_state =>
      if game_state.game_state ≠ GameState.AwaitingPlayerGuess then
        .error .InvalidGameState
      else
        match game_state.randomness with
        | none => .error .RandomnessNotAvailable
        | some randomness =>
          let game_number := calculate_game_number randomness
          let result := if guess = game_number then GameResult.Win else GameResult.Lose
          .ok { game_state with player_guess := some guess
                                result := some result
                                game_state := GameState.GameComplete }

/-- The randomness derivation the spec names derive_randomness:
SHA3-256 of the proof bytes followed by the committed seed bytes,
exactly what fulfill_randomness computes. -/
def derive_randomness (proof seed : List Nat) : List Nat :=
  sha3_256 (proof ++ seed)

/-! ## Instructions and dispatch, from src/vrf-program/src/instruction.rs
and src/vrf-program/src/lib.rs -/

/-- Embedding of VrfInstruction, src/vrf-program/src/instruction.rs
lines 3 to 28. -/
inductive VrfInstruction where
  | Initialize
  | RequestRandomness (seed : List Nat)
  | FulfillRandomness (proof : List Nat)
deriving DecidableEq

/-- Embedding of GameInstruction, src/vrf-program/src/instruction.rs
lines 30 to 46. -/
inductive GameInstruction where
  | InitializeGame
  | SubmitGuess (guess : Nat)
deriving DecidableEq

/-- A little-endian u32 from four bytes, as in the borsh encoding of
a Vec length. -/
def u32_le (b0 b1 b2 b3 : Nat) : Nat :=
  b0 + 256 * b1 + 65536 * b2 + 16777216 * b3

/-- The borsh decoding of VrfInstruction used by try_from_slice in
processor.rs line 25: one discriminant byte (0 Initialize,
1 RequestRandomness, 2 FulfillRandomness), a u32 length prefix plus
seed bytes for RequestRandomness, 64 raw bytes for
FulfillRandomness; every byte of the input must be consumed. -/
def vrf_instruction_try_from_slice (data : List Nat) : Option VrfInstruction :=
  match data with
  | [0] => some .Initialize
  | 1 :: b0 :: b1 :: b2 :: b3 :: rest =>
    if rest.length = u32_le b0 b1 b2 b3 then some (.RequestRandomness rest) else none
  | 2 :: rest => if rest.length = 64 then some (.FulfillRandomness rest) else none
  | _ => none

/-- The borsh decoding of GameInstruction used by try_from_slice in
processor.rs line 176: one discriminant byte (0 InitializeGame,
1 SubmitGuess), one guess byte for SubmitGuess; every byte of the
input must be consumed. -/
def game_instruction_try_from_slice (data : List Nat) : Option GameInstruction :=
  match data with
  | [0] => some .InitializeGame
  | [1, g] => some (.SubmitGuess g)
  | _ => none

/-- The two instruction domains an incoming byte string can resolve
to. -/
inductive DispatchedOp where
  | game (op : GameInstruction)
  | vrf (op : VrfInstruction)
deriving DecidableEq

/-- Embedding of the routing and decoding performed by the entrypoint
wrapper process_instruction in src/vrf-program/src/lib.rs lines 26 to
38 composed with the instruction decodes of processor.rs: when the
data is nonempty and its first byte is 0 the REMAINING bytes are
decoded as a GameInstruction; otherwise the WHOLE buffer, first byte
included, is decoded as a VrfInstruction. An undecodable buffer is
rejected with InvalidInstruction (the error the spec calls
MalformedOperation). -/
def lib_process_instruction_route (data : List Nat) : Except ProgramErr DispatchedOp :=
  if data.length > 0 ∧ data.headD 0 = 0 then
    match game_instruction_try_from_slice (data.drop 1) with
    | some op => .ok (.game op)
    | none => .error .InvalidInstruction
  else
    match vrf_instruction_try_from_slice data with
    | some op => .ok (.vrf op)
    | none => .error .InvalidInstruction

/-! ## Reachability model.

A World is the persistent storage of the linked account pair. An Op
is one submitted operation together with the host-provided facts
about it (signer flags, owner flags, acting key, payload). applyOp
runs one operation: on success the serialized records replace the
stored ones, on any error the host discards all writes and the world
is unchanged (the all-or-nothing transaction semantics of the host
runtime). -/

/-- The persistent storage of a vrf account and its linked game
account; none is empty (never written) storage. -/
structure World where
  vrf : Option VrfAccountState
  game : Option GameAccountState
deriving DecidableEq

/-- One submitted operation with its host-checked context. -/
inductive Op where
  | initVrf (signer owned : Bool) (key : Pubkey)
  | initGame (signer owned : Bool) (key : Pubkey)
  | request (signer vrfOwned gameOwned : Bool) (key : Pubkey) (seed : List Nat)
  | fulfill (signer vrfOwned gameOwned : Bool) (key : Pubkey) (proof : List Nat)
  | guess (signer : Bool) (playerKey : Pubkey) (gameOwned : Bool) (n : Nat)
deriving DecidableEq

/-- Run one operation against the stored records, keeping the world
unchanged when the operation errors. -/
def applyOp (w : World) (op : Op) : World :=
  match op with
  | .initVrf s o k =>
    match initialize_vrf s o k w.vrf with
    | .ok v => { w with vrf := some v }
    | .error _ => w
  | .initGame s o k =>
    match initialize_game s o k w.game with
    | .ok g => { w with game := some g }
    | .error _ => w
  | .request s vo go k seed =>
    match request_randomness s vo go k w.vrf w.game seed with
    | .ok vg => { vrf := some vg.1, game := some vg.2 }
    | .error _ => w
  | .fulfill s vo go k proof =>
    match fulfill_randomness s vo go k w.vrf w.game proof with
    | .ok vg => { vrf := some vg.1, game := some vg.2 }
    | .error _ => w
  | .guess s k o n =>
    match submit_guess s k o w.game n with
    | .ok g => { w with game := some g }
    | .error _ => w

/-- Run a sequence of operations from the initial world of two empty,
freshly allocated accounts. -/
def run (ops : List Op) : World :=
  ops.foldl applyOp { vrf := none, game := none }

/-- The order of phases along the intended lifecycle
AwaitingRandomness, then AwaitingPlayerGuess, then GameComplete. -/
def phaseIdx : GameState → Nat
  | .AwaitingRandomness => 0
  | .AwaitingPlayerGuess => 1
  | .GameComplete => 2

/-- The GameRecord invariants exactly as the spec states them. -/
def gameInv (g : GameAccountState) : Prop :=
  (g.game_state = GameState.AwaitingPlayerGuess →
    g.randomness.isSome ∧ g.player_guess = none ∧ g.result = none) ∧
  (g.game_state = GameState.GameComplete →
    g.player_guess.isSome ∧ g.result.isSome) ∧
  (g.game_state = GameState.AwaitingRandomness →
    g.randomness = none ∧ g.player_guess = none ∧ g.result = none)

/-- The weakened GameRecord invariants that the code actually
preserves: in AwaitingPlayerGuess the randomness is present, but a
stale player_guess and result may also be present. -/
def gameInvWeak (g : GameAccountState) : Prop :=
  (g.game_state = GameState.AwaitingPlayerGuess → g.randomness.isSome) ∧
  (g.game_state = GameState.GameComplete →
    g.player_guess.isSome ∧ g.result.isSome) ∧
  (g.game_state = GameState.AwaitingRandomness →
    g.randomness = none ∧ g.player_guess = none ∧ g.result = none)

/-! ## Concrete example records used by witnesses and
counterexamples -/

/-- A vrf record with authority 1 and a committed seed. -/
def vrfReadyEx : VrfAccountState :=
  { authority := 1
    is_initialized := true
    seed := some [1, 2]
    randomness := none
    proof := none
    public_key := List.replicate 32 1 }

/-- A game record with authority 1 awaiting the player guess, with
randomness whose first byte is 7. -/
def gameReadyEx : GameAccountState :=
  { authority := 1
    is_initialized := true
    randomness := some (List.replicate 32 7)
    game_state := GameState.AwaitingPlayerGuess
    player_guess := none
    result := none }

/-- A freshly initialized game record with authority 1. -/
def gameFreshEx : GameAccountState :=
  { authority := 1
    is_initialized := true
    randomness := none
    game_state := GameState.AwaitingRandomness
    player_guess := none
    result := none }

/-- A completed game record with authority 1. -/
def gameCompleteEx : GameAccountState :=
  { authority := 1
    is_initialized := true
    randomness := some (List.replicate 32 7)
    game_state := GameState.GameComplete
    player_guess := some 5
    result := some GameResult.Win }

set_option maxRecDepth 20000 in
/-- The embedded SHA3-256 agrees with the published SHA3-256 test
vector for the empty message, validating the Keccak embedding that
stands in for the external sha3 crate. -/
theorem sha3_256_empty_test_vector :
    sha3_256 [] =
      [167, 255, 198, 248, 191, 30, 215, 102, 81, 193, 71, 86, 160, 97, 214, 98,
       245, 128, 255, 77, 228, 59, 73, 250, 130, 216, 10, 75, 128, 248, 67, 74] := by
  decide

/-- Every SHA3-256 digest has exactly 32 bytes. -/
theorem sha3_256_length (msg : List Nat) : (sha3_256 msg).length = 32 := by
  have hr : List.range 4 = [0, 1, 2, 3] := by decide
  have hl : ∀ x : Nat, (laneToBytes x).length = 8 := by
    intro x
    simp [laneToBytes]
  simp [sha3_256, hr, List.flatten, hl]

/-! ## Shape lemmas about successful operations, shared by several
theorems below -/

/-- A successful request_randomness always returns a game record in
phase AwaitingRandomness with randomness, player_guess and result
cleared. -/
theorem request_randomness_ok_shape
    {s vo go : Bool} {k : Pubkey} {vd : Option VrfAccountState}
    {gd : Option GameAccountState} {seed : List Nat}
    {vg : VrfAccountState × GameAccountState}
    (h : request_randomness s vo go k vd gd seed = .ok vg) :
    vg.2.game_state = GameState.AwaitingRandomness ∧ vg.2.randomness = none ∧
    vg.2.player_guess = none ∧ vg.2.result = none := by
  unfold request_randomness at h
  repeat' split at h
  all_goals (try simp_all)
  all_goals (subst h)
  all_goals simp_all

/-- A successful fulfill_randomness always returns a game record in
phase AwaitingPlayerGuess with randomness present. -/
theorem fulfill_randomness_ok_shape
    {s vo go : Bool} {k : Pubkey} {vd : Option VrfAccountState}
    {gd : Option GameAccountState} {proof : List Nat}
    {vg : VrfAccountState × GameAccountState}
    (h : fulfill_randomness s vo go k vd gd proof = .ok vg) :
    vg.2.game_state = GameState.AwaitingPlayerGuess ∧ vg.2.randomness.isSome := by
  unfold fulfill_randomness at h
  repeat' split at h
  all_goals (try simp_all)
  all_goals (subst h)
  all_goals simp_all

/-- A successful submit_guess consumed a stored record in phase
AwaitingPlayerGuess and returns it in phase GameComplete with the
guess and result recorded. -/
theorem submit_guess_ok_shape
    {s : Bool} {k : Pubkey} {o : Bool} {gd : Option GameAccountState} {n : Nat}
    {g : GameAccountState}
    (h : submit_guess s k o gd n = .ok g) :
    g.game_state = GameState.GameComplete ∧ g.player_guess.isSome ∧ g.result.isSome ∧
    ∃ g0, gd = some g0 ∧ g0.game_state = GameState.AwaitingPlayerGuess := by
  unfold submit_guess at h
  repeat' split at h
  all_goals (try simp_all)
  all_goals (subst h)
  all_goals simp_all

/-- A successful initialize_game always returns the fresh record. -/
theorem initialize_game_ok_shape
    {s o : Bool} {k : Pubkey} {gd : Option GameAccountState} {g : GameAccountState}
    (h : initialize_game s o k gd = .ok g) :
    g.game_state = GameState.AwaitingRandomness ∧ g.randomness = none ∧
    g.player_guess = none ∧ g.result = none := by
  unfold initialize_game at h
  repeat' split at h
  all_goals (try simp_all)
  all_goals (subst h)
  all_goals simp_all

/-! ## Claim theorems -/

/-- Claim C9: for every 32-byte input x, calculate_game_number x is
the first byte of x modulo 100, and therefore lies in [0,100). -/
theorem C9_calculate_game_number_range (x : List Nat) (h : x.length = 32) :
    calculate_game_number x = x.headD 0 % 100 ∧ calculate_game_number x < 100 :=
  ⟨rfl, Nat.mod_lt _ (by norm_num)⟩

/-- Witness for C9 at the all-zero 32-byte input. -/
theorem C9_calculate_game_number_range_witness :
    (List.replicate 32 0).length = 32 ∧
    calculate_game_number (List.replicate 32 0) = (List.replicate 32 0).headD 0 % 100 ∧
    calculate_game_number (List.replicate 32 0) < 100 :=
  ⟨by decide, C9_calculate_game_number_range (List.replicate 32 0) (by decide)⟩

/-- Claim C1: for every game record and guess (with the host signer
and owner checks passing), submit_guess fails with InvalidGameState
(the error the spec calls WrongPhase) unless the phase is
AwaitingPlayerGuess, fails with RandomnessNotAvailable (the spec name
is RandomnessUnavailable) if the randomness is absent, and otherwise
records the guess, sets the result to Win exactly when the guess
equals calculate_game_number of the randomness, and completes the
game. -/
theorem C1_submit_guess_behavior (k : Pubkey) (g : GameAccountState) (guess : Nat) :
    (g.game_state ≠ GameState.AwaitingPlayerGuess →
      submit_guess true k true (some g) guess = .error .InvalidGameState) ∧
    (g.game_state = GameState.AwaitingPlayerGuess → g.randomness = none →
      submit_guess true k true (some g) guess = .error .RandomnessNotAvailable) ∧
    (∀ r, g.game_state = GameState.AwaitingPlayerGuess → g.randomness = some r →
      submit_guess true k true (some g) guess =
        .ok { g with player_guess := some guess
                     result := some (if guess = calculate_game_number r
                                     then GameResult.Win else GameResult.Lose)
                     game_state := GameState.GameComplete }) := by
  refine ⟨?_, ?_, ?_⟩
  · intro h
    simp [submit_guess, h]
  · intro h1 h2
    simp [submit_guess, h1, h2]
  · intro r h1 h2
    simp [submit_guess, h1, h2]

/-- Witness for C1: the guess 7 against randomness starting with
byte 7 wins and completes the game. -/
theorem C1_submit_guess_behavior_witness :
    submit_guess true 2 true (some gameReadyEx) 7 =
      .ok { gameReadyEx with
              player_guess := some 7
              result := some (if 7 = calculate_game_number (List.replicate 32 7)
                              then GameResult.Win else GameResult.Lose)
              game_state := GameState.GameComplete } :=
  (C1_submit_guess_behavior 2 gameReadyEx 7).2.2 (List.replicate 32 7) rfl rfl

/-- Claim C3: with matching authority (and the host checks passing),
request_randomness commits the seed and clears randomness and proof
on the vrf record, and in the same operation resets the stored game
record to phase AwaitingRandomness with randomness, player_guess and
result all absent. -/
theorem C3_request_randomness_resets (k : Pubkey) (v : VrfAccountState)
    (g : GameAccountState) (seed : List Nat) (hk : v.authority = k) :
    request_randomness true true true k (some v) (some g) seed =
      .ok ({ v with seed := some seed, randomness := none, proof := none },
           { g with game_state := GameState.AwaitingRandomness
                    randomness := none
                    player_guess := none
                    result := none }) := by
  simp [request_randomness, hk]

/-- Witness for C3 on a completed game record: the re-commit clears
the stale guess and result. -/
theorem C3_request_randomness_resets_witness :
    request_randomness true true true 1 (some vrfReadyEx) (some gameCompleteEx) [9] =
      .ok ({ vrfReadyEx with seed := some [9], randomness := none, proof := none },
           { gameCompleteEx with
               game_state := GameState.AwaitingRandomness
               randomness := none
               player_guess := none
               result := none }) :=
  C3_request_randomness_resets 1 vrfReadyEx gameCompleteEx [9] rfl

/-- Claim C10: a request_randomness call finding empty game storage
does not fail for lack of a prior game Initialize: it creates the
game record in the same operation, owned by the acting signer,
initialized, in phase AwaitingRandomness with all optional fields
absent. -/
theorem C10_request_randomness_creates_game (k : Pubkey) (v : VrfAccountState)
    (seed : List Nat) (hk : v.authority = k) :
    request_randomness true true true k (some v) none seed =
      .ok ({ v with seed := some seed, randomness := none, proof := none },
           { authority := k
             is_initialized := true
             randomness := none
             game_state := GameState.AwaitingRandomness
             player_guess := none
             result := none }) := by
  simp [request_randomness, hk]

/-- Witness for C10 with authority 1 and seed [1, 2]. -/
theorem C10_request_randomness_creates_game_witness :
    request_randomness true true true 1 (some vrfReadyEx) none [1, 2] =
      .ok ({ vrfReadyEx with seed := some [1, 2], randomness := none, proof := none },
           { authority := 1
             is_initialized := true
             randomness := none
             game_state := GameState.AwaitingRandomness
             player_guess := none
             result := none }) :=
  C10_request_randomness_creates_game 1 vrfReadyEx [1, 2] rfl

/-- Claim C2: with matching authority (and host checks passing),
fulfill_randomness fails with InvalidArgument (the error the spec
calls CommitmentMissing) when the committed seed is absent, and
otherwise stores the proof, sets the randomness of the vrf record to
derive_randomness proof seed, a 32-byte value, copies that same
randomness into the linked game record and advances its phase to
AwaitingPlayerGuess. -/
theorem C2_fulfill_randomness_behavior (k : Pubkey) (v : VrfAccountState)
    (g : GameAccountState) (proof : List Nat) (hk : v.authority = k) :
    (v.seed = none →
      fulfill_randomness true true true k (some v) (some g) proof =
        .error .InvalidArgument) ∧
    (∀ seed, v.seed = some seed →
      fulfill_randomness true true true k (some v) (some g) proof =
        .ok ({ v with proof := some proof
                      randomness := some (derive_randomness proof seed) },
             { g with randomness := some (derive_randomness proof seed)
                      game_state := GameState.AwaitingPlayerGuess }) ∧
      (derive_randomness proof seed).length = 32) := by
  constructor
  · intro hs
    simp [fulfill_randomness, hk, hs]
  · intro seed hs
    refine ⟨by simp [fulfill_randomness, derive_randomness, hk, hs], sha3_256_length _⟩

/-- Witness for C2 on the committed seed [1, 2] and the all-0xFF
proof. -/
theorem C2_fulfill_randomness_behavior_witness :
    fulfill_randomness true true true 1 (some vrfReadyEx) (some gameFreshEx)
        (List.replicate 64 255) =
      .ok ({ vrfReadyEx with
               proof := some (List.replicate 64 255)
               randomness := some (derive_randomness (List.replicate 64 255) [1, 2]) },
           { gameFreshEx with
               randomness := some (derive_randomness (List.replicate 64 255) [1, 2])
               game_state := GameState.AwaitingPlayerGuess }) ∧
    (derive_randomness (List.replicate 64 255) [1, 2]).length = 32 :=
  (C2_fulfill_randomness_behavior 1 vrfReadyEx gameFreshEx
    (List.replicate 64 255) rfl).2 [1, 2] rfl

/-- Counterexample to claim C5 as stated: submit_guess never compares
the acting identity with the stored authority. Identity 2 differs
from the stored authority 1, yet the guess succeeds and mutates the
record rather than failing with InvalidAuthority. -/
theorem C5_counterexample :
    gameReadyEx.authority ≠ 2 ∧
    submit_guess true 2 true (some gameReadyEx) 7 =
      .ok { gameReadyEx with
              player_guess := some 7
              result := some GameResult.Win
              game_state := GameState.GameComplete } :=
  ⟨by decide, rfl⟩

/-- Claim C5 as amended: request_randomness and fulfill_randomness
invoked with an identity different from the stored authority fail
with InvalidAuthority, leaving the stored records unchanged (the
world is untouched); submit_guess performs no authority comparison at
all: its outcome is independent of the acting identity key. -/
theorem C5_amended_authority_enforcement (k : Pubkey) (v : VrfAccountState)
    (gd : Option GameAccountState) (seed proof : List Nat)
    (hk : v.authority ≠ k) :
    request_randomness true true true k (some v) gd seed = .error .InvalidAuthority ∧
    fulfill_randomness true true true k (some v) gd proof = .error .InvalidAuthority ∧
    (∀ w : World, w.vrf = some v →
      applyOp w (Op.request true true true k seed) = w ∧
      applyOp w (Op.fulfill true true true k proof) = w) ∧
    (∀ (s o : Bool) (k1 k2 : Pubkey) (gd2 : Option GameAccountState) (n : Nat),
      submit_guess s k1 o gd2 n = submit_guess s k2 o gd2 n) := by
  have h1 : ∀ gd2 : Option GameAccountState,
      request_randomness true true true k (some v) gd2 seed = .error .InvalidAuthority := by
    intro gd2
    simp [request_randomness, hk]
  have h2 : ∀ gd2 : Option GameAccountState,
      fulfill_randomness true true true k (some v) gd2 proof = .error .InvalidAuthority := by
    intro gd2
    simp [fulfill_randomness, hk]
  refine ⟨h1 gd, h2 gd, ?_, ?_⟩
  · intro w hw
    constructor
    · simp [applyOp, hw, h1]
    · simp [applyOp, hw, h2]
  · intro s o k1 k2 gd2 n
    rfl

/-- Witness for the amended C5: identity 2 against stored authority
1 is rejected by commit and reveal. -/
theorem C5_amended_authority_enforcement_witness :
    request_randomness true true true 2 (some vrfReadyEx) (some gameFreshEx) [3] =
      .error .InvalidAuthority ∧
    fulfill_randomness true true true 2 (some vrfReadyEx) (some gameFreshEx)
      (List.replicate 64 0) = .error .InvalidAuthority :=
  ⟨(C5_amended_authority_enforcement 2 vrfReadyEx (some gameFreshEx) [3]
      (List.replicate 64 0) (by decide)).1,
   (C5_amended_authority_enforcement 2 vrfReadyEx (some gameFreshEx) [3]
      (List.replicate 64 0) (by decide)).2.1⟩

/-- Counterexample to claim C6 as stated: initializing a record whose
storage already holds an initialized record does not fail; the source
never reads the existing data and simply overwrites it. -/
theorem C6_counterexample :
    gameFreshEx.is_initialized = true ∧
    initialize_game true true 2 (some gameFreshEx) =
      .ok { authority := 2
            is_initialized := true
            randomness := none
            game_state := GameState.AwaitingRandomness
            player_guess := none
            result := none } ∧
    vrfReadyEx.is_initialized = true ∧
    initialize_vrf true true 2 (some vrfReadyEx) =
      .ok { authority := 2
            is_initialized := true
            seed := none
            randomness := none
            proof := none
            public_key := List.replicate 32 1 } :=
  ⟨rfl, rfl, rfl, rfl⟩

/-- Claim C6 as amended: Initialize never fails because of prior
initialization — it unconditionally overwrites the record with the
fresh state — and when it runs with the host checks passing it
produces a record with initialized = true and all optional fields
absent (phase AwaitingRandomness for the game record); it fails with
MissingRequiredSignature (the spec name is MissingAuthorization) when
the acting identity is not a signer. -/
theorem C6_amended_initialize_overwrites (k : Pubkey)
    (vd : Option VrfAccountState) (gd : Option GameAccountState) :
    initialize_vrf true true k vd =
      .ok { authority := k
            is_initialized := true
            seed := none
            randomness := none
            proof := none
            public_key := List.replicate 32 1 } ∧
    initialize_game true true k gd =
      .ok { authority := k
            is_initialized := true
            randomness := none
            game_state := GameState.AwaitingRandomness
            player_guess := none
            result := none } ∧
    (∀ o : Bool, initialize_vrf false o k vd = .error .MissingRequiredSignature) ∧
    (∀ o : Bool, initialize_game false o k gd = .error .MissingRequiredSignature) :=
  ⟨rfl, rfl, fun _ => rfl, fun _ => rfl⟩

/-- Decoding can only yield the Initialize variant from the exact
one-byte buffer [0]. -/
theorem vrf_decode_initialize_shape {data : List Nat}
    (h : vrf_instruction_try_from_slice data = some VrfInstruction.Initialize) :
    data = [0] := by
  unfold vrf_instruction_try_from_slice at h
  repeat' split at h
  all_goals simp_all

/-- Counterexample to claim C4 as stated: the buffer [1, 0], which
the claim reads as domain 1 (Randomness) followed by opcode 0
(Initialize), is rejected, because the dispatcher hands the WHOLE
buffer, first byte included, to the randomness decoder, which reads
discriminant 1 (RequestRandomness) and then fails on the truncated
length prefix. Conversely a buffer with leading byte 2, an unknown
domain per the claim, is accepted as a Reveal. -/
theorem C4_counterexample :
    lib_process_instruction_route [1, 0] = .error .InvalidInstruction ∧
    lib_process_instruction_route (2 :: List.replicate 64 0) =
      .ok (.vrf (.FulfillRandomness (List.replicate 64 0))) :=
  ⟨rfl, rfl⟩

/-- Claim C4 as amended: a leading byte 0 routes the remaining bytes
to the game decoder (opcode 0 Initialize, opcode 1 SubmitGuess with
one guess byte); any other buffer, the leading byte included, is
decoded whole as the randomness operation, so the leading byte itself
is the randomness opcode (1 Commit with u32 length plus seed bytes, 2
Reveal with 64 proof bytes) and randomness Initialize (opcode 0) is
unreachable through the dispatcher; undecodable buffers are rejected
with InvalidInstruction, the error the spec calls
MalformedOperation. -/
theorem C4_amended_dispatch :
    (∀ rest : List Nat,
      lib_process_instruction_route (0 :: rest) =
        match game_instruction_try_from_slice rest with
        | some op => .ok (.game op)
        | none => .error .InvalidInstruction) ∧
    (∀ data : List Nat, data.headD 1 ≠ 0 →
      lib_process_instruction_route data =
        match vrf_instruction_try_from_slice data with
        | some op => .ok (.vrf op)
        | none => .error .InvalidInstruction) ∧
    (∀ (data : List Nat) (op : DispatchedOp),
      lib_process_instruction_route data = .ok op → op ≠ .vrf .Initialize) ∧
    (∀ (b0 b1 b2 b3 : Nat) (seed : List Nat), seed.length = u32_le b0 b1 b2 b3 →
      lib_process_instruction_route (1 :: b0 :: b1 :: b2 :: b3 :: seed) =
        .ok (.vrf (.RequestRandomness seed))) ∧
    (∀ proof : List Nat, proof.length = 64 →
      lib_process_instruction_route (2 :: proof) =
        .ok (.vrf (.FulfillRandomness proof))) ∧
    lib_process_instruction_route [0, 0] = .ok (.game .InitializeGame) ∧
    (∀ g : Nat, lib_process_instruction_route [0, 1, g] = .ok (.game (.SubmitGuess g))) := by
  refine ⟨?_, ?_, ?_, ?_, ?_, rfl, fun g => rfl⟩
  · intro rest
    simp [lib_process_instruction_route]
  · intro data h
    cases data with
    | nil => rfl
    | cons b rest =>
      simp at h
      simp [lib_process_instruction_route, h]
  · intro data op hroute hop
    subst hop
    unfold lib_process_instruction_route at hroute
    split at hroute
    · split at hroute <;> simp_all
    · rename_i hcond
      split at hroute
      · rename_i v heq
        have hv : v = VrfInstruction.Initialize := by simp_all
        subst hv
        have hdata := vrf_decode_initialize_shape heq
        subst hdata
        exact hcond (by simp)
      · simp_all
  · intro b0 b1 b2 b3 seed h
    simp [lib_process_instruction_route, vrf_instruction_try_from_slice, h]
  · intro proof h
    simp [lib_process_instruction_route, vrf_instruction_try_from_slice, h]

/-- Witness for the amended C4: a well-formed Reveal buffer with
leading byte 2 and 64 proof bytes decodes to FulfillRandomness. -/
theorem C4_amended_dispatch_witness :
    lib_process_instruction_route (2 :: List.replicate 64 7) =
      .ok (.vrf (.FulfillRandomness (List.replicate 64 7))) :=
  C4_amended_dispatch.2.2.2.2.1 (List.replicate 64 7) (by decide)

/-! ## Reachability theorems (C7 and C8) -/

/-- gameInvWeak holds of any record in phase AwaitingRandomness with
all transient fields cleared. -/
theorem gameInvWeak_of_awaitingRandomness {g : GameAccountState}
    (h1 : g.game_state = GameState.AwaitingRandomness) (h2 : g.randomness = none)
    (h3 : g.player_guess = none) (h4 : g.result = none) : gameInvWeak g := by
  refine ⟨?_, ?_, ?_⟩ <;> intro hp <;> simp_all

/-- gameInvWeak holds of any record in phase AwaitingPlayerGuess with
randomness present. -/
theorem gameInvWeak_of_awaitingPlayerGuess {g : GameAccountState}
    (h1 : g.game_state = GameState.AwaitingPlayerGuess) (h2 : g.randomness.isSome) :
    gameInvWeak g := by
  refine ⟨?_, ?_, ?_⟩ <;> intro hp <;> simp_all

/-- gameInvWeak holds of any completed record with guess and result
present. -/
theorem gameInvWeak_of_gameComplete {g : GameAccountState}
    (h1 : g.game_state = GameState.GameComplete) (h2 : g.player_guess.isSome)
    (h3 : g.result.isSome) : gameInvWeak g := by
  refine ⟨?_, ?_, ?_⟩ <;> intro hp <;> simp_all

/-- One operation preserves the weakened game invariants. -/
theorem applyOp_preserves_gameInvWeak {w : World} (op : Op)
    (ih : ∀ g, w.game = some g → gameInvWeak g) :
    ∀ g, (applyOp w op).game = some g → gameInvWeak g := by
  intro g hg
  cases op with
  | initVrf s o k =>
    simp only [applyOp] at hg
    split at hg
    · exact ih g hg
    · exact ih g hg
  | initGame s o k =>
    simp only [applyOp] at hg
    split at hg
    · rename_i g2 heq
      have hs := initialize_game_ok_shape heq
      have hgg : g2 = g := by simpa using hg
      subst hgg
      exact gameInvWeak_of_awaitingRandomness hs.1 hs.2.1 hs.2.2.1 hs.2.2.2
    · exact ih g hg
  | request s vo go k seed =>
    simp only [applyOp] at hg
    split at hg
    · rename_i vg heq
      have hs := request_randomness_ok_shape heq
      have hgg : vg.2 = g := by simpa using hg
      subst hgg
      exact gameInvWeak_of_awaitingRandomness hs.1 hs.2.1 hs.2.2.1 hs.2.2.2
    · exact ih g hg
  | fulfill s vo go k proof =>
    simp only [applyOp] at hg
    split at hg
    · rename_i vg heq
      have hs := fulfill_randomness_ok_shape heq
      have hgg : vg.2 = g := by simpa using hg
      subst hgg
      exact gameInvWeak_of_awaitingPlayerGuess hs.1 hs.2
    · exact ih g hg
  | guess s k o n =>
    simp only [applyOp] at hg
    split at hg
    · rename_i g2 heq
      have hs := submit_guess_ok_shape heq
      have hgg : g2 = g := by simpa using hg
      subst hgg
      exact gameInvWeak_of_gameComplete hs.1 hs.2.1 hs.2.2.1
    · exact ih g hg

/-- The weakened game invariants hold after any operation sequence
from any starting world whose stored game record satisfies them. -/
theorem foldl_applyOp_gameInvWeak (ops : List Op) :
    ∀ w : World, (∀ g, w.game = some g → gameInvWeak g) →
      ∀ g, (ops.foldl applyOp w).game = some g → gameInvWeak g := by
  induction ops with
  | nil =>
    intro w ih g hg
    exact ih g hg
  | cons op rest ihrec =>
    intro w ih g hg
    exact ihrec (applyOp w op) (applyOp_preserves_gameInvWeak op ih) g (by simpa using hg)

/-- The operation sequence of a full happy-path round: initialize the
vrf record with authority 1, commit seed [1, 2], reveal the all-0xFF
proof, and submit guess 5. -/
def opsCompleteRound : List Op :=
  [Op.initVrf true true 1,
   Op.request true true true 1 [1, 2],
   Op.fulfill true true true 1 (List.replicate 64 255),
   Op.guess true 1 true 5]

/-- The full round followed by a second reveal of the same proof,
which the program accepts because the committed seed is still
stored. -/
def opsStaleGuess : List Op :=
  opsCompleteRound ++ [Op.fulfill true true true 1 (List.replicate 64 255)]

/-- The game record stored after opsStaleGuess: back in phase
AwaitingPlayerGuess with randomness present but with the stale guess
and result of the finished round still recorded. -/
def staleGameEx : GameAccountState :=
  { authority := 1
    is_initialized := true
    randomness := some (derive_randomness (List.replicate 64 255) [1, 2])
    game_state := GameState.AwaitingPlayerGuess
    player_guess := some 5
    result := some (if 5 = calculate_game_number (derive_randomness (List.replicate 64 255) [1, 2])
                    then GameResult.Win else GameResult.Lose) }

/-- Counterexample to claim C7 as stated: the spec invariants are not
preserved by every reachable sequence. After a completed round a
second reveal is accepted and moves the game back to
AwaitingPlayerGuess without clearing player_guess and result, so the
reachable record staleGameEx is in AwaitingPlayerGuess with
player_guess still present. -/
theorem C7_counterexample :
    ¬ (∀ (ops : List Op) (g : GameAccountState), (run ops).game = some g → gameInv g) := by
  intro hall
  have h := hall opsStaleGuess staleGameEx rfl
  have h2 := (h.1 rfl).2.1
  simp [staleGameEx] at h2

/-- Claim C7 as amended: every game record state reachable from the
empty world by any operation sequence satisfies the weakened
invariants gameInvWeak: AwaitingPlayerGuess implies randomness
present (but stale player_guess and result may persist after a
re-reveal), GameComplete implies player_guess and result present, and
AwaitingRandomness implies randomness, player_guess and result all
absent. -/
theorem C7_amended_reachable_invariants (ops : List Op) (g : GameAccountState)
    (h : (run ops).game = some g) : gameInvWeak g :=
  foldl_applyOp_gameInvWeak ops { vrf := none, game := none }
    (fun g2 hg2 => by simp at hg2) g h

/-- Witness for the amended C7: the record reached by a single game
Initialize satisfies the weakened invariants. -/
theorem C7_amended_reachable_invariants_witness : gameInvWeak gameFreshEx :=
  C7_amended_reachable_invariants [Op.initGame true true 1] gameFreshEx rfl

/-- Counterexample to claim C8 as stated: phases do not move only
forward. A reachable completed game (phase GameComplete) moves back
to AwaitingRandomness when a new seed is committed on the linked
randomness record. -/
theorem C8_counterexample :
    (run opsCompleteRound).game.map (fun g => g.game_state) =
      some GameState.GameComplete ∧
    (run (opsCompleteRound ++ [Op.request true true true 1 [9]])).game.map
        (fun g => g.game_state) =
      some GameState.AwaitingRandomness ∧
    phaseIdx GameState.AwaitingRandomness < phaseIdx GameState.GameComplete :=
  ⟨rfl, rfl, by decide⟩

/-- Claim C8 as amended: submit_guess in any phase other than
AwaitingPlayerGuess fails with InvalidGameState (the error the spec
calls WrongPhase); the phase after each successful operation is fully
characterized: AwaitingRandomness after a commit or a game
Initialize (a reset that can move the phase backward),
AwaitingPlayerGuess after a reveal (also from GameComplete), and
GameComplete after a guess, which only succeeds from
AwaitingPlayerGuess. -/
theorem C8_amended_phase_transitions :
    (∀ (k : Pubkey) (g : GameAccountState) (n : Nat),
      g.game_state ≠ GameState.AwaitingPlayerGuess →
      submit_guess true k true (some g) n = .error .InvalidGameState) ∧
    (∀ (s vo go : Bool) (k : Pubkey) (vd : Option VrfAccountState)
        (gd : Option GameAccountState) (seed : List Nat)
        (vg : VrfAccountState × GameAccountState),
      request_randomness s vo go k vd gd seed = .ok vg →
      vg.2.game_state = GameState.AwaitingRandomness) ∧
    (∀ (s vo go : Bool) (k : Pubkey) (vd : Option VrfAccountState)
        (gd : Option GameAccountState) (proof : List Nat)
        (vg : VrfAccountState × GameAccountState),
      fulfill_randomness s vo go k vd gd proof = .ok vg →
      vg.2.game_state = GameState.AwaitingPlayerGuess) ∧
    (∀ (s : Bool) (k : Pubkey) (o : Bool) (gd : Option GameAccountState) (n : Nat)
        (g : GameAccountState),
      submit_guess s k o gd n = .ok g →
      g.game_state = GameState.GameComplete ∧
      ∃ g0, gd = some g0 ∧ g0.game_state = GameState.AwaitingPlayerGuess) ∧
    (∀ (s o : Bool) (k : Pubkey) (gd : Option GameAccountState) (g : GameAccountState),
      initialize_game s o k gd = .ok g →
      g.game_state = GameState.AwaitingRandomness) := by
  refine ⟨?_, ?_, ?_, ?_, ?_⟩
  · intro k g n h
    simp [submit_guess, h]
  · intro s vo go k vd gd seed vg h
    exact (request_randomness_ok_shape h).1
  · intro s vo go k vd gd proof vg h
    exact (fulfill_randomness_ok_shape h).1
  · intro s k o gd n g h
    exact ⟨(submit_guess_ok_shape h).1, (submit_guess_ok_shape h).2.2.2⟩
  · intro s o k gd g h
    exact (initialize_game_ok_shape h).1

/-- Witness for the amended C8: a guess against a record still in
AwaitingRandomness is rejected with InvalidGameState. -/
theorem C8_amended_phase_transitions_witness :
    submit_guess true 1 true (some gameFreshEx) 3 = .error .InvalidGameState :=
  C8_amended_phase_transitions.1 1 gameFreshEx 3 (by decide)
